import Mathlib

/-!
Shallow embedding of the CC-Tweaked-Amazon-OS agent orchestrator
(`src/ccllm/agent_framework/orchestrator/`), covering the task state machine
(`task_manager.py`), the inbound-frame handlers and the tool dispatcher
(`main.py`), and the content sanitizer of `src/ccllm/CCLLMV2/cc_agent_v2.py`.

Conventions: Python `Optional[str]` becomes `Option String`; Python dicts used
as string-to-string maps become association lists with last-write-wins update;
the outbound WebSocket frames produced by a handler are returned as a list;
`asyncio.create_task(process_task ...)` is modelled as a `Bool` flag in the
handler's return value saying whether reprocessing was scheduled.  Timestamps
(`created_at` / `updated_at`) are pure metadata, touched by every operation and
relevant to no claim, so they are omitted from the state.
-/

namespace Orchestrator

/-- `TaskStatus` from `task_manager.py`. -/
inductive TaskStatus where
  | queued
  | running
  | waiting_for_command
  | completed
  | failed
  | cancelled
deriving DecidableEq, Repr

/-- One entry of a task's conversation history (`{role, content}` dict). -/
structure HistEntry where
  role : String
  content : String
deriving DecidableEq, Repr

/-- Association-list lookup, modelling Python `d[k]` / `k in d` on a dict. -/
def cacheGet (cache : List (String × String)) (k : String) : Option String :=
  match cache with
  | [] => none
  | (k₀, v₀) :: rest => if k₀ = k then some v₀ else cacheGet rest k

/-- Association-list update, modelling Python `d[k] = v` on a dict. -/
def cacheSet (cache : List (String × String)) (k : String) (v : String) :
    List (String × String) :=
  match cache with
  | [] => [(k, v)]
  | (k₀, v₀) :: rest => if k₀ = k then (k₀, v) :: rest else (k₀, v₀) :: cacheSet rest k v

/-- The `Task` object of `task_manager.py` (fields relevant to the control
plane; `created_at`/`updated_at` metadata omitted). -/
structure Task where
  task_id : String
  kind : String
  client_id : String
  prompt : String
  allowed_commands : List String
  status : TaskStatus
  history : List HistEntry
  result : Option String
  error : Option String
  pending_call_id : Option String
  pending_command : Option String
  consecutive_errors : Nat
  max_consecutive_errors : Nat
  file_cache : List (String × String)
deriving DecidableEq, Repr

/-- `Task.add_to_history`. -/
def add_to_history (t : Task) (entry : HistEntry) : Task :=
  { t with history := t.history ++ [entry] }

/-- `TaskManager.create_task` followed by `Task.__init__`: a fresh task in
status `queued`, with `consecutive_errors = 0`, `max_consecutive_errors = 3`,
empty cache and pending fields, and the system prompt seeded into history. -/
def create_task (task_id kind client_id prompt : String)
    (allowed_commands : List String) : Task :=
  add_to_history
    { task_id := task_id
      kind := kind
      client_id := client_id
      prompt := prompt
      allowed_commands := allowed_commands
      status := TaskStatus.queued
      history := []
      result := none
      error := none
      pending_call_id := none
      pending_command := none
      consecutive_errors := 0
      max_consecutive_errors := 3
      file_cache := [] }
    { role := "system", content := prompt }

/-- `TaskManager.update_status`. -/
def update_status (t : Task) (status : TaskStatus) : Task :=
  { t with status := status }

/-- `TaskManager.complete_task`. -/
def complete_task (t : Task) (result : String) : Task :=
  { t with status := TaskStatus.completed, result := some result }

/-- `TaskManager.fail_task`. -/
def fail_task (t : Task) (error : String) : Task :=
  { t with status := TaskStatus.failed, error := some error }

/-- `TaskManager.set_pending_command`: records the outstanding call and moves
the task to `waiting_for_command`. -/
def set_pending_command (t : Task) (call_id command : String) : Task :=
  { t with
      pending_call_id := some call_id
      pending_command := some command
      status := TaskStatus.waiting_for_command }

/-- `TaskManager.clear_pending_command`: clears both pending fields.  Note
that it does not touch `status`. -/
def clear_pending_command (t : Task) : Task :=
  { t with pending_call_id := none, pending_command := none }

/-- Python truthiness of an `Optional[str]` (`if error:`): `None` and the
empty string are falsy. -/
def strOptTruthy : Option String → Bool
  | none => false
  | some s => s ≠ ""

/-- Rendering of `json.dumps(result, indent=2)` for the string-valued result
dicts of this embedding (`None` renders as `null`).  The exact JSON layout is
irrelevant to every claim; only that it is a deterministic function of the
payload matters. -/
def json_dumps : Option (List (String × String)) → String
  | none => "null"
  | some kvs =>
      "\x7b" ++ String.intercalate ", "
        (kvs.map (fun kv => "\"" ++ kv.1 ++ "\": \"" ++ kv.2 ++ "\"")) ++ "\x7d"

/-- `LLMAdapter.format_tool_result` from `llm_adapter.py`. -/
def format_tool_result (tool_name : String)
    (result : Option (List (String × String))) (error : Option String) :
    HistEntry :=
  if strOptTruthy error then
    { role := "user"
      content := "[SYSTEM] Your '" ++ tool_name ++ "' call failed with error:\n"
        ++ error.getD "" ++ "\n\nYou must fix this and try again." }
  else
    { role := "user"
      content := "[SYSTEM] Your '" ++ tool_name ++ "' call succeeded. Result:\n```json\n"
        ++ json_dumps result ++ "\n```" }

/-- Outbound WebSocket frames emitted by the handlers (`ws_manager.send_to_client`
payloads, discriminated by their `type` field). -/
inductive Frame where
  | task_update (task_id status : String)
  | status_update (task_id message : String)
  | command_call (task_id call_id command : String) (args : List (String × String))
  | user_question (task_id call_id question : String)
  | task_completed (task_id : String)
  | task_failed (task_id error : String)
deriving DecidableEq, Repr

/-- An inbound `command_result` frame (`CommandResult` model in `main.py`):
`result` is an optional dict, modelled as a string-valued association list. -/
structure CmdResultMsg where
  task_id : String
  call_id : String
  ok : Bool
  result : Option (List (String × String))
  error : Option String
deriving DecidableEq, Repr

/-- Python `task.pending_command or "unknown"`: `None` and `""` are falsy. -/
def pendingToolName (t : Task) : String :=
  match t.pending_command with
  | none => "unknown"
  | some s => if s = "" then "unknown" else s

/-- Python `str(error)` where `error : Optional[str]` (used in the f-string of
the failure message): `None` prints as `None`. -/
def errToStr : Option String → String
  | none => "None"
  | some s => s

/-- The `fs_read` caching step of `handle_command_result` (`main.py` lines
237-243): on a successful result for a pending `fs_read` whose result dict is
truthy and has a `content` key, cache the content under the returned path
(skipped when the path is empty). -/
def cacheFsRead (t : Task) (m : CmdResultMsg) : Task :=
  match m.result with
  | none => t
  | some r =>
      if t.pending_command = some "fs_read" ∧ r ≠ [] ∧ (cacheGet r "content").isSome then
        if (cacheGet r "path").getD "" ≠ "" then
          { t with file_cache := cacheSet t.file_cache ((cacheGet r "path").getD "") ((cacheGet r "content").getD "") }
        else t
      else t

/-- `handle_command_result` from `main.py` (lines 189-258), acting on the task
whose id the frame names.  Returns the updated task, the outbound frames sent,
and whether `process_task` was scheduled.  The unknown-task guard lives in
`mgr_handle_command_result` below; the `pending_call_id != call_id` guard drops
the frame unchanged.  On a failing result the error counter is bumped and, at
the cap, the task is failed and a `task_failed` frame is sent — note this path
returns before the history append and before `clear_pending_command`. -/
def handle_command_result (t : Task) (m : CmdResultMsg) :
    Task × List Frame × Bool :=
  if t.pending_call_id = some m.call_id then
    if m.ok then
      let t₁ := { t with consecutive_errors := 0 }
      let t₂ := cacheFsRead t₁ m
      let entry := format_tool_result (pendingToolName t₂) m.result none
      (clear_pending_command (add_to_history t₂ entry), [], true)
    else
      let t₁ := { t with consecutive_errors := t.consecutive_errors + 1 }
      if t₁.consecutive_errors ≥ t₁.max_consecutive_errors then
        (fail_task t₁ ("Too many consecutive errors. Last error: " ++ errToStr m.error),
         [Frame.task_failed t.task_id
            ("Task failed after " ++ toString t₁.consecutive_errors ++ " consecutive errors")],
         false)
      else
        let entry := format_tool_result (pendingToolName t₁) none m.error
        (clear_pending_command (add_to_history t₁ entry), [], true)
  else
    (t, [], false)

/-- The `cancel_task` branch of `websocket_endpoint` (`main.py` lines 107-116):
set the status to cancelled and emit a `task_update` frame.  Nothing else is
touched: in particular the pending call is not cleared. -/
def handle_cancel_task (t : Task) : Task × List Frame :=
  (update_status t TaskStatus.cancelled,
   [Frame.task_update t.task_id "cancelled"])

/-- The first mutation performed by `process_task` (`main.py` line 792):
`task_manager.update_status(task_id, TaskStatus.RUNNING)`, unconditionally. -/
def process_task_start (t : Task) : Task :=
  update_status t TaskStatus.running

/-- The task registry (`TaskManager.tasks`), an association list from task id
to task. -/
def TaskMap := List (String × Task)

/-- Registry lookup, modelling `TaskManager.get_task`. -/
def getTask (mgr : TaskMap) (task_id : String) : Option Task :=
  match mgr with
  | [] => none
  | (k, t) :: rest => if k = task_id then some t else getTask rest task_id

/-- Registry update. -/
def putTask (mgr : TaskMap) (task_id : String) (t : Task) : TaskMap :=
  match mgr with
  | [] => [(task_id, t)]
  | (k, t₀) :: rest =>
      if k = task_id then (k, t) :: rest else (k, t₀) :: putTask rest task_id t

/-- `handle_command_result` at registry level: a frame naming an unknown task
is dropped without touching any state. -/
def mgr_handle_command_result (mgr : TaskMap) (m : CmdResultMsg) :
    TaskMap × List Frame × Bool :=
  match getTask mgr m.task_id with
  | none => (mgr, [], false)
  | some t =>
      let (t', frames, sched) := handle_command_result t m
      (putTask mgr m.task_id t', frames, sched)

/-! ### Concrete traces through the command-result handler

A reachable execution: a task is created, dispatches a remote call three times,
and each call comes back failed.  The third failure reaches the error cap.
Because the cap path of `handle_command_result` returns before
`clear_pending_command`, the pending call survives the failure, so a duplicate
delivery of the same failing frame is processed again. -/

/-- A failing `command_result` frame for task `t1` and the given call id. -/
def failMsg (c : String) : CmdResultMsg :=
  { task_id := "t1", call_id := c, ok := false, result := none, error := some "boom" }

def trace_task0 : Task := create_task "t1" "general_agent" "cc1" "p" ["fs_read"]

def trace_t1 : Task := set_pending_command trace_task0 "c1" "fs_read"

def trace_t2 : Task := (handle_command_result trace_t1 (failMsg "c1")).1

def trace_t3 : Task := set_pending_command trace_t2 "c2" "fs_read"

def trace_t4 : Task := (handle_command_result trace_t3 (failMsg "c2")).1

def trace_t5 : Task := set_pending_command trace_t4 "c3" "fs_read"

/-- Third failure: the cap (3) is reached, the task is failed. -/
def trace_t6 : Task × List Frame × Bool := handle_command_result trace_t5 (failMsg "c3")

/-- The same failing frame delivered a second time after the task failed. -/
def trace_t7 : Task × List Frame × Bool := handle_command_result trace_t6.1 (failMsg "c3")

/-- A task cancelled while a remote call is outstanding, then receiving the
late successful result for that call. -/
def c1_waiting : Task :=
  set_pending_command (create_task "t9" "general_agent" "cc1" "p" ["fs_read"]) "c9" "fs_read"

def c1_cancelled : Task := (handle_cancel_task c1_waiting).1

def c1_okMsg : CmdResultMsg :=
  { task_id := "t9", call_id := "c9", ok := true
    result := some [("path", "a.txt"), ("content", "hello")], error := none }

def c1_after : Task × List Frame × Bool := handle_command_result c1_cancelled c1_okMsg

/-- `cacheFsRead` only touches the file cache. -/
theorem cacheFsRead_consecutive_errors (t : Task) (m : CmdResultMsg) :
    (cacheFsRead t m).consecutive_errors = t.consecutive_errors := by
  unfold cacheFsRead
  split
  · rfl
  · split
    · split <;> rfl
    · rfl

/-- `cacheFsRead` only touches the file cache. -/
theorem cacheFsRead_max_consecutive_errors (t : Task) (m : CmdResultMsg) :
    (cacheFsRead t m).max_consecutive_errors = t.max_consecutive_errors := by
  unfold cacheFsRead
  split
  · rfl
  · split
    · split <;> rfl
    · rfl

/-- A `command_result` frame whose call id does not match the outstanding
pending call is dropped: no state change, no frames, no rescheduling
(`main.py` lines 214-217). -/
theorem hcr_drop (t : Task) (m : CmdResultMsg)
    (h : t.pending_call_id ≠ some m.call_id) :
    handle_command_result t m = (t, [], false) := by
  simp [handle_command_result, h]

/-- C1: a task in a terminal status is immutable and a cancelled task makes no
further progress.  The code violates this: cancellation only sets the status and
does not clear the pending call, and `handle_command_result` never checks for a
terminal status, so a late `command_result` for the still-pending call of a
cancelled task appends to its history, populates its file cache, and schedules
`process_task`, whose first action moves the task from `cancelled` back to
`running`. -/
theorem cancelled_task_revived_by_late_result :
    c1_cancelled.status = TaskStatus.cancelled ∧
    c1_after.1.history.length = c1_cancelled.history.length + 1 ∧
    cacheGet c1_after.1.file_cache "a.txt" = some "hello" ∧
    c1_after.2.2 = true ∧
    (process_task_start c1_after.1).status = TaskStatus.running := by
  decide

/-- C2 counterexample: at the end of the reachable trace `trace_t6` (third
consecutive failure, cap reached) the task has `pending_call_id = some "c3"`
while its status is `failed`, refuting the claimed equivalence
`pending_call ≠ null ⇔ status = waiting_for_command`. -/
theorem pending_call_iff_waiting_fails :
    ¬ ((trace_t6.1.pending_call_id ≠ none) ↔
        (trace_t6.1.status = TaskStatus.waiting_for_command)) := by
  decide

/-- C2 amended: `set_pending_command` does establish the pending fields and the
`waiting_for_command` status together; but the operations that resolve or
abandon the call do not restore the equivalence: `clear_pending_command` clears
the pending fields while leaving the status untouched, and `fail_task` (the cap
path) changes the status to `failed` while leaving the pending call set. -/
theorem pending_call_establishment :
    (∀ t c cmd, (set_pending_command t c cmd).pending_call_id = some c ∧
        (set_pending_command t c cmd).pending_command = some cmd ∧
        (set_pending_command t c cmd).status = TaskStatus.waiting_for_command) ∧
    (∀ t, (clear_pending_command t).pending_call_id = none ∧
        (clear_pending_command t).pending_command = none ∧
        (clear_pending_command t).status = t.status) ∧
    (∀ t e, (fail_task t e).pending_call_id = t.pending_call_id ∧
        (fail_task t e).status = TaskStatus.failed) := by
  refine ⟨fun t c cmd => ⟨rfl, rfl, rfl⟩, fun t => ⟨rfl, rfl, rfl⟩, fun t e => ⟨rfl, rfl⟩⟩

/-- C3 counterexample: after the cap-reaching failure (`trace_t6`) the pending
call is still set, so the duplicate failing frame of `trace_t7` is processed
again and pushes `consecutive_errors` to 4, strictly above
`max_consecutive_errors = 3`. -/
theorem consecutive_errors_exceed_cap :
    trace_t7.1.consecutive_errors = 4 ∧
    trace_t7.1.max_consecutive_errors = 3 ∧
    ¬ (trace_t7.1.consecutive_errors ≤ trace_t7.1.max_consecutive_errors) := by
  decide

/-- C3 amended: the counter policy of `handle_command_result` — a matching
failed result increments the counter; reaching the cap fails the task and emits
a `task_failed` frame; a matching successful result resets the counter to 0;
the default cap is 3; and the bound `consecutive_errors < max_consecutive_errors`
is preserved for every task that is not already `failed` (once a task has
failed at the cap, a further matching failed result pushes the counter past
it). -/
theorem consecutive_errors_policy :
    (∀ i k c p a, (create_task i k c p a).max_consecutive_errors = 3) ∧
    (∀ t (m : CmdResultMsg), t.pending_call_id = some m.call_id → m.ok = false →
        (handle_command_result t m).1.consecutive_errors = t.consecutive_errors + 1 ∧
        (t.consecutive_errors + 1 ≥ t.max_consecutive_errors →
          (handle_command_result t m).1.status = TaskStatus.failed ∧
          (handle_command_result t m).2.1 =
            [Frame.task_failed t.task_id
              ("Task failed after " ++ toString (t.consecutive_errors + 1)
                ++ " consecutive errors")])) ∧
    (∀ t (m : CmdResultMsg), t.pending_call_id = some m.call_id → m.ok = true →
        (handle_command_result t m).1.consecutive_errors = 0) ∧
    (∀ t (m : CmdResultMsg),
        (t.status ≠ TaskStatus.failed → t.consecutive_errors < t.max_consecutive_errors) →
        0 < t.max_consecutive_errors →
        ((handle_command_result t m).1.status ≠ TaskStatus.failed →
          (handle_command_result t m).1.consecutive_errors
            < (handle_command_result t m).1.max_consecutive_errors)) := by
  refine ⟨fun i k c p a => rfl, ?_, ?_, ?_⟩
  · intro t m hm hok
    simp only [handle_command_result, if_pos hm, hok, Bool.false_eq_true, if_false]
    by_cases hcap : t.consecutive_errors + 1 ≥ t.max_consecutive_errors
    · simp [fail_task, hcap]
    · simp [clear_pending_command, add_to_history, hcap]
  · intro t m hm hok
    have h2 : (handle_command_result t m).1.consecutive_errors
        = (cacheFsRead { t with consecutive_errors := 0 } m).consecutive_errors := by
      simp only [handle_command_result, if_pos hm, hok, if_true]
      rfl
    rw [h2, cacheFsRead_consecutive_errors]
  · intro t m hinv hpos
    by_cases hm : t.pending_call_id = some m.call_id
    · cases hok : m.ok
      · simp only [handle_command_result, if_pos hm, hok, Bool.false_eq_true, if_false]
        by_cases hcap : t.consecutive_errors + 1 ≥ t.max_consecutive_errors
        · simp [fail_task, hcap]
        · simp only [hcap, if_false]
          intro _
          simp only [clear_pending_command, add_to_history]
          omega
      · simp only [handle_command_result, if_pos hm, hok, if_true]
        intro _
        have h2 : ((clear_pending_command (add_to_history
            (cacheFsRead { t with consecutive_errors := 0 } m)
            (format_tool_result (pendingToolName (cacheFsRead { t with consecutive_errors := 0 } m))
              m.result none))).consecutive_errors)
            = (cacheFsRead { t with consecutive_errors := 0 } m).consecutive_errors := rfl
        have h4 : ((clear_pending_command (add_to_history
            (cacheFsRead { t with consecutive_errors := 0 } m)
            (format_tool_result (pendingToolName (cacheFsRead { t with consecutive_errors := 0 } m))
              m.result none))).max_consecutive_errors)
            = (cacheFsRead { t with consecutive_errors := 0 } m).max_consecutive_errors := rfl
        simp only [h2, h4, cacheFsRead_consecutive_errors, cacheFsRead_max_consecutive_errors]
        omega
    · simp only [handle_command_result, if_neg hm]
      intro hnf
      exact lt_of_lt_of_le (hinv hnf) (le_refl _)

/-- Witness for `consecutive_errors_policy` at the concrete trace state
`trace_t5` and the failing frame `failMsg "c3"`. -/
theorem consecutive_errors_policy_witness :
    trace_t5.pending_call_id = some "c3" ∧
    (handle_command_result trace_t5 (failMsg "c3")).1.consecutive_errors
      = trace_t5.consecutive_errors + 1 :=
  ⟨by decide, (consecutive_errors_policy.2.1 trace_t5 (failMsg "c3") (by decide) rfl).1⟩

/-- C4 counterexample: processing the failing frame `failMsg "c3"` twice is not
equivalent to processing it once — the second delivery changes the task state
again (the counter moves from 3 to 4) and emits a second `task_failed` frame,
because the cap path left the pending call set. -/
theorem duplicate_command_result_not_idempotent :
    trace_t7.1 ≠ trace_t6.1 ∧
    trace_t7.2.1 =
      [Frame.task_failed "t1" "Task failed after 4 consecutive errors"] := by
  decide

/-- C4 amended: a `command_result` whose call id does not match the task's
outstanding pending call, or whose task id is unknown, is dropped without any
state change; and duplicate delivery is idempotent for every frame except one
whose failure drives the counter to the cap: a successful frame, and a failing
frame below the cap, both clear the pending call, so their duplicate is
dropped. -/
theorem command_result_drop_and_idempotence :
    (∀ t m, t.pending_call_id ≠ some m.call_id →
        handle_command_result t m = (t, [], false)) ∧
    (∀ mgr m, getTask mgr m.task_id = none →
        mgr_handle_command_result mgr m = (mgr, [], false)) ∧
    (∀ t (m : CmdResultMsg),
        (m.ok = true ∨ t.consecutive_errors + 1 < t.max_consecutive_errors) →
        handle_command_result (handle_command_result t m).1 m
          = ((handle_command_result t m).1, [], false)) := by
  refine ⟨hcr_drop, ?_, ?_⟩
  · intro mgr m h
    simp [mgr_handle_command_result, h]
  · intro t m hcase
    by_cases hm : t.pending_call_id = some m.call_id
    · have hfst : (handle_command_result t m).1.pending_call_id = none := by
        cases hok : m.ok
        · have hsub : t.consecutive_errors + 1 < t.max_consecutive_errors := by
            rcases hcase with h | h
            · rw [hok] at h; exact absurd h (by simp)
            · exact h
          simp only [handle_command_result, if_pos hm, hok, Bool.false_eq_true, if_false]
          split
          · exact absurd (by assumption) (by omega)
          · rfl
        · simp only [handle_command_result, if_pos hm, hok, if_true]
          rfl
      have hne : (handle_command_result t m).1.pending_call_id ≠ some m.call_id := by
        rw [hfst]; simp
      exact hcr_drop _ m hne
    · rw [hcr_drop t m hm]
      exact hcr_drop t m hm

/-- Witness for `command_result_drop_and_idempotence`: the first failing result
of the concrete trace is below the cap, and its duplicate is dropped. -/
theorem command_result_idempotence_witness :
    trace_t1.consecutive_errors + 1 < trace_t1.max_consecutive_errors ∧
    handle_command_result (handle_command_result trace_t1 (failMsg "c1")).1 (failMsg "c1")
      = ((handle_command_result trace_t1 (failMsg "c1")).1, [], false) :=
  ⟨by decide,
    command_result_drop_and_idempotence.2.2 trace_t1 (failMsg "c1") (Or.inr (by decide))⟩

/-! ### The content sanitizer (`sanitize_code_content`, `cc_agent_v2.py` 1280-1300)

The Python function strips the string, then
- if the whole stripped string matches `^```(?:\w+)?\n(.*?)\n```$` (DOTALL), it
  returns the group: since the `$` anchor fixes the end of the match, this is
  the text between the header line and the final `"\n```"` suffix;
- else if the stripped string has length ≥ 2 and starts and ends with a
  backtick, it returns the inner slice, stripped again;
- else it returns the original (unstripped) string. -/

/-- Python `str.strip()` whitespace (the ASCII cases). -/
def pyIsSpace (c : Char) : Bool :=
  c = ' ' || c = '\t' || c = '\n' || c = '\r' || c = '\x0b' || c = '\x0c'

/-- Python `str.strip()` on a character list. -/
def pyStrip (l : List Char) : List Char :=
  ((l.dropWhile pyIsSpace).reverse.dropWhile pyIsSpace).reverse

/-- Regex `\w` (the ASCII cases, which is all the patterns use). -/
def isWordChar (c : Char) : Bool := c.isAlphanum || c = '_'

/-- The part of the fence regex after the opening marker: expects a newline,
then succeeds iff the remainder ends with `"\n```"`, returning everything in
between (the non-greedy group is forced by the `$` anchor, so the split point
is unique). -/
def fenceTail? : List Char → Option (List Char)
  | '\n' :: bodyTail =>
      if 4 ≤ bodyTail.length ∧ bodyTail.drop (bodyTail.length - 4) = ['\n', '`', '`', '`'] then
        some (bodyTail.take (bodyTail.length - 4))
      else none
  | _ => none

/-- Full-string match of `^```(?:\w+)?\n(.*?)\n```$` with DOTALL, returning
the group: three backticks, an optional language word, a newline, the body,
then `"\n```"` at the very end.  (Since `\w` never matches a newline, the
greedy optional word is exactly the maximal word-character run after the
opening marker.) -/
def fenceBody? : List Char → Option (List Char)
  | '`' :: '`' :: '`' :: rest => fenceTail? (rest.dropWhile isWordChar)
  | _ => none

/-- The inline-backtick test: `len(text) >= 2 and text.startswith("`") and
text.endswith("`")`. -/
def backtickWrapped (l : List Char) : Bool :=
  decide (2 ≤ l.length) && (l.head? = some '`') && (l.getLast? = some '`')

/-- `sanitize_code_content` from `cc_agent_v2.py`. -/
def sanitize_code_content (s : String) : String :=
  match fenceBody? (pyStrip s.data) with
  | some body => String.mk body
  | none =>
      if backtickWrapped (pyStrip s.data) then
        String.mk (pyStrip ((pyStrip s.data).drop 1).dropLast)
      else s

/-- C5 counterexample: the sanitizer is not idempotent.  On the doubly
backtick-wrapped string ```` ``a`` ```` one application strips one layer
(giving `` `a` ``) and a second application strips another (giving `a`). -/
theorem sanitize_not_idempotent :
    ¬ (sanitize_code_content (sanitize_code_content "``a``")
        = sanitize_code_content "``a``") := by
  decide

/-- A list that starts and ends with a non-whitespace character is unchanged
by `pyStrip`. -/
theorem pyStrip_sandwich (a b : Char) (mid : List Char)
    (ha : pyIsSpace a = false) (hb : pyIsSpace b = false) :
    pyStrip (a :: (mid ++ [b])) = a :: (mid ++ [b]) := by
  have h1 : (a :: (mid ++ [b])).dropWhile pyIsSpace = a :: (mid ++ [b]) := by
    simp [List.dropWhile_cons, ha]
  have hr : (a :: (mid ++ [b])).reverse = b :: (mid.reverse ++ [a]) := by
    simp
  have h2 : ((a :: (mid ++ [b])).reverse).dropWhile pyIsSpace
      = (a :: (mid ++ [b])).reverse := by
    rw [hr]
    simp [List.dropWhile_cons, hb]
  unfold pyStrip
  rw [h1, h2, List.reverse_reverse]

/-- Dropping word characters from an all-word-character run followed by a
newline stops exactly at the newline. -/
theorem dropWhile_word_run (w : List Char) (hw : w.all isWordChar = true)
    (z : List Char) :
    (w ++ '\n' :: z).dropWhile isWordChar = '\n' :: z := by
  have hnl : isWordChar '\n' = false := by decide
  induction w with
  | nil => simp [List.dropWhile_cons, hnl]
  | cons a t ih =>
      simp only [List.all_cons, Bool.and_eq_true] at hw
      simp [List.dropWhile_cons, hw.1, ih hw.2]

/-- Dropping a matching run never lengthens a list. -/
theorem length_dropWhile_le (p : Char → Bool) (l : List Char) :
    (l.dropWhile p).length ≤ l.length := by
  induction l with
  | nil => simp
  | cons a t ih =>
      rw [List.dropWhile_cons]
      split
      · exact le_trans ih (by simp)
      · exact le_refl _

/-- Stripping never lengthens a list. -/
theorem length_pyStrip_le (l : List Char) : (pyStrip l).length ≤ l.length := by
  unfold pyStrip
  calc ((l.dropWhile pyIsSpace).reverse.dropWhile pyIsSpace).reverse.length
      = ((l.dropWhile pyIsSpace).reverse.dropWhile pyIsSpace).length :=
        List.length_reverse _
    _ ≤ (l.dropWhile pyIsSpace).reverse.length := length_dropWhile_le _ _
    _ = (l.dropWhile pyIsSpace).length := List.length_reverse _
    _ ≤ l.length := length_dropWhile_le _ _

/-- The body extracted by `fenceTail?` is at least 5 characters shorter than
its input (the leading newline and the `"\n```"` suffix are dropped). -/
theorem fenceTail?_some_len (x body : List Char) (h : fenceTail? x = some body) :
    body.length + 5 ≤ x.length := by
  unfold fenceTail? at h
  split at h
  · split at h
    · rename_i bt hc
      obtain hb := Option.some.inj h
      subst hb
      rw [List.length_take]
      simp only [List.length_cons]
      rw [Nat.min_eq_left (Nat.sub_le _ _)]
      have h4 := hc.1
      omega
    · exact absurd h (by simp)
  · exact absurd h (by simp)

/-- The group of a fenced-block match is at least 8 characters shorter than
the matched string (the ` ``` ` markers, the header newline and the closing
newline are all dropped). -/
theorem fenceBody?_some_len (l body : List Char) (h : fenceBody? l = some body) :
    body.length + 8 ≤ l.length := by
  unfold fenceBody? at h
  split at h
  · rename_i rest
    have h5 := fenceTail?_some_len _ _ h
    have hd : (rest.dropWhile isWordChar).length ≤ rest.length :=
      length_dropWhile_le _ _
    simp only [List.length_cons]
    omega
  · exact absurd h (by simp)

/-- A string whose stripped form carries an enclosing layer (a fenced block or
a surrounding backtick pair) strictly shrinks under the sanitizer, so it is
never a fixed point. -/
theorem sanitize_ne_of_wrapped (t : String)
    (hw : ((fenceBody? (pyStrip t.data)).isSome
        || backtickWrapped (pyStrip t.data)) = true) :
    sanitize_code_content t ≠ t := by
  have hlt : (sanitize_code_content t).data.length < t.data.length := by
    cases hfb : fenceBody? (pyStrip t.data) with
    | some body =>
        have hs : sanitize_code_content t = String.mk body := by
          unfold sanitize_code_content
          rw [hfb]
        rw [hs]
        have h1 := fenceBody?_some_len _ _ hfb
        have h2 := length_pyStrip_le t.data
        show body.length < t.data.length
        omega
    | none =>
        have hbw : backtickWrapped (pyStrip t.data) = true := by
          rw [hfb] at hw
          simpa using hw
        have hs : sanitize_code_content t
            = String.mk (pyStrip ((pyStrip t.data).drop 1).dropLast) := by
          unfold sanitize_code_content
          rw [hfb]
          dsimp only
          rw [if_pos hbw]
        rw [hs]
        have hlen2 : 2 ≤ (pyStrip t.data).length := by
          unfold backtickWrapped at hbw
          simp only [Bool.and_eq_true, decide_eq_true_eq] at hbw
          exact hbw.1.1
        have h3 := length_pyStrip_le (((pyStrip t.data).drop 1).dropLast)
        have h4 : (((pyStrip t.data).drop 1).dropLast).length
            = (pyStrip t.data).length - 1 - 1 := by
          rw [List.length_dropLast, List.length_drop]
        have h5 := length_pyStrip_le t.data
        show (pyStrip ((pyStrip t.data).drop 1).dropLast).length < t.data.length
        omega
  intro heq
  rw [heq] at hlt
  exact Nat.lt_irrefl _ hlt

/-- C5 amended: the sanitizer strips exactly one enclosing Markdown layer per
application: a whole-string fenced block yields its body verbatim, and a
backtick-enclosed string that is not itself a fenced block loses its outer
backticks (the remainder stripped of whitespace).  It is therefore not
idempotent in general — a doubly wrapped string loses one layer per
application — and `sanitize(sanitize(s)) = sanitize(s)` holds exactly when the
result of the first application carries no further enclosing fence or
backtick pair. -/
theorem sanitize_one_layer_and_conditional_idempotence :
    (∀ w body, w.all isWordChar = true →
        sanitize_code_content
          (String.mk (['`', '`', '`'] ++ w ++ ['\n'] ++ body ++ ['\n', '`', '`', '`']))
          = String.mk body) ∧
    (∀ mid, fenceBody? ('`' :: (mid ++ ['`'])) = none →
        sanitize_code_content (String.mk ('`' :: (mid ++ ['`'])))
          = String.mk (pyStrip mid)) ∧
    (∀ s, sanitize_code_content (sanitize_code_content s) = sanitize_code_content s ↔
        (fenceBody? (pyStrip (sanitize_code_content s).data) = none ∧
          backtickWrapped (pyStrip (sanitize_code_content s).data) = false)) := by
  refine ⟨?_, ?_, ?_⟩
  · intro w body hw
    have hL : (['`', '`', '`'] ++ w ++ ['\n'] ++ body ++ ['\n', '`', '`', '`'])
        = '`' :: (('`' :: '`' :: (w ++ '\n' :: (body ++ ['\n', '`', '`']))) ++ ['`']) := by
      simp
    have hstrip : pyStrip (['`', '`', '`'] ++ w ++ ['\n'] ++ body ++ ['\n', '`', '`', '`'])
        = (['`', '`', '`'] ++ w ++ ['\n'] ++ body ++ ['\n', '`', '`', '`']) := by
      rw [hL]
      exact pyStrip_sandwich '`' '`' _ (by decide) (by decide)
    have hlen : (body ++ ['\n', '`', '`', '`']).length = body.length + 4 := by
      simp
    have hdrop : (body ++ ['\n', '`', '`', '`']).drop
        ((body ++ ['\n', '`', '`', '`']).length - 4) = ['\n', '`', '`', '`'] := by
      rw [hlen, Nat.add_sub_cancel]
      exact List.drop_left body ['\n', '`', '`', '`']
    have htake : (body ++ ['\n', '`', '`', '`']).take
        ((body ++ ['\n', '`', '`', '`']).length - 4) = body := by
      rw [hlen, Nat.add_sub_cancel]
      exact List.take_left body ['\n', '`', '`', '`']
    have hfence : fenceBody? (['`', '`', '`'] ++ w ++ ['\n'] ++ body ++ ['\n', '`', '`', '`'])
        = some body := by
      have hL2 : (['`', '`', '`'] ++ w ++ ['\n'] ++ body ++ ['\n', '`', '`', '`'])
          = '`' :: '`' :: '`' :: (w ++ '\n' :: (body ++ ['\n', '`', '`', '`'])) := by
        simp
      rw [hL2]
      show fenceTail? ((w ++ '\n' :: (body ++ ['\n', '`', '`', '`'])).dropWhile isWordChar)
        = some body
      rw [dropWhile_word_run w hw]
      show (if 4 ≤ (body ++ ['\n', '`', '`', '`']).length ∧
          (body ++ ['\n', '`', '`', '`']).drop ((body ++ ['\n', '`', '`', '`']).length - 4)
            = ['\n', '`', '`', '`'] then
          some ((body ++ ['\n', '`', '`', '`']).take ((body ++ ['\n', '`', '`', '`']).length - 4))
        else none) = some body
      rw [if_pos ⟨by rw [hlen]; omega, hdrop⟩, htake]
    have hdata : (String.mk (['`', '`', '`'] ++ w ++ ['\n'] ++ body ++ ['\n', '`', '`', '`'])).data
        = (['`', '`', '`'] ++ w ++ ['\n'] ++ body ++ ['\n', '`', '`', '`']) := rfl
    unfold sanitize_code_content
    rw [hdata, hstrip, hfence]
  · intro mid hnf
    have hstrip : pyStrip ('`' :: (mid ++ ['`'])) = '`' :: (mid ++ ['`']) :=
      pyStrip_sandwich '`' '`' mid (by decide) (by decide)
    have hcat : ('`' :: (mid ++ ['`'])) = ('`' :: mid) ++ ['`'] := by simp
    have hbw : backtickWrapped ('`' :: (mid ++ ['`'])) = true := by
      unfold backtickWrapped
      simp only [Bool.and_eq_true, decide_eq_true_eq]
      refine ⟨⟨?_, rfl⟩, ?_⟩
      · simp only [List.length_cons, List.length_append, List.length_singleton]
        omega
      · rw [hcat, List.getLast?_concat]
    have hdata : (String.mk ('`' :: (mid ++ ['`']))).data = '`' :: (mid ++ ['`']) := rfl
    unfold sanitize_code_content
    rw [hdata, hstrip, hnf]
    dsimp only
    rw [if_pos hbw]
    show String.mk (pyStrip ((mid ++ ['`']).dropLast)) = String.mk (pyStrip mid)
    rw [List.dropLast_concat]
  · intro s
    constructor
    · intro hid
      by_cases hA : fenceBody? (pyStrip (sanitize_code_content s).data) = none
      · by_cases hB : backtickWrapped (pyStrip (sanitize_code_content s).data) = false
        · exact ⟨hA, hB⟩
        · have hb : backtickWrapped (pyStrip (sanitize_code_content s).data) = true := by
            revert hB
            cases backtickWrapped (pyStrip (sanitize_code_content s).data) <;> simp
          exact absurd hid (sanitize_ne_of_wrapped _ (by rw [hA, hb]; rfl))
      · have hsome : (fenceBody? (pyStrip (sanitize_code_content s).data)).isSome = true :=
          Option.isSome_iff_ne_none.mpr hA
        exact absurd hid (sanitize_ne_of_wrapped _ (by rw [hsome]; exact Bool.true_or _))
    · rintro ⟨h1, h2⟩
      generalize hu : sanitize_code_content s = u at h1 h2 ⊢
      unfold sanitize_code_content
      rw [h1]
      simp [h2]

/-- Witness for `sanitize_one_layer_and_conditional_idempotence`: a concrete
fenced payload ` ```lua\nx\n``` ` is unwrapped to `x`; the concrete
backtick-wrapped payload `` `a` `` is unwrapped to `a`; and the idempotence
criterion is instantiated at a concrete wrapper-free string. -/
theorem sanitize_one_layer_witness :
    (['l', 'u', 'a'].all isWordChar = true ∧
      sanitize_code_content
        (String.mk (['`', '`', '`'] ++ ['l', 'u', 'a'] ++ ['\n'] ++ ['x'] ++ ['\n', '`', '`', '`']))
        = String.mk ['x']) ∧
    (fenceBody? ('`' :: (['a'] ++ ['`'])) = none ∧
      sanitize_code_content (String.mk ('`' :: (['a'] ++ ['`'])))
        = String.mk (pyStrip ['a'])) ∧
    (sanitize_code_content (sanitize_code_content "print(1)")
        = sanitize_code_content "print(1)" ↔
      (fenceBody? (pyStrip (sanitize_code_content "print(1)").data) = none ∧
        backtickWrapped (pyStrip (sanitize_code_content "print(1)").data) = false)) :=
  ⟨⟨by decide, sanitize_one_layer_and_conditional_idempotence.1 ['l', 'u', 'a'] ['x'] (by decide)⟩,
   ⟨by decide, sanitize_one_layer_and_conditional_idempotence.2.1 ['a'] (by decide)⟩,
   sanitize_one_layer_and_conditional_idempotence.2.2 "print(1)"⟩

/-! ### Cache/patch engine (`handle_patch_cached`, `handle_diff_cached`,
`handle_lua_check_cached` in `main.py`)

External collaborators — the `patch` subprocess, Python's `re.sub`, and `luac`
— are passed in as function parameters (`applyU`, `rsub`, `luaCheck`), exactly
as the spec treats them (contract-only externals).  `difflib.unified_diff` is
modelled concretely below. -/

/-- Python `str.splitlines(keepends=True)` (the `\n`, `\r\n` and `\r`
terminators; the exotic Unicode terminators are not used by this system). -/
def splitlinesKE : List Char → List (List Char)
  | [] => []
  | '\r' :: '\n' :: rest => ['\r', '\n'] :: splitlinesKE rest
  | '\r' :: rest => ['\r'] :: splitlinesKE rest
  | '\n' :: rest => ['\n'] :: splitlinesKE rest
  | c :: rest =>
      match splitlinesKE rest with
      | [] => [[c]]
      | h :: tl => (c :: h) :: tl

/-- Python `str.splitlines()` (no keepends), same terminators. -/
def splitlinesNK : List Char → List (List Char)
  | [] => []
  | '\r' :: '\n' :: rest => [] :: splitlinesNK rest
  | '\r' :: rest => [] :: splitlinesNK rest
  | '\n' :: rest => [] :: splitlinesNK rest
  | c :: rest =>
      match splitlinesNK rest with
      | [] => [[c]]
      | h :: tl => (c :: h) :: tl

/-- Model of Python `difflib.unified_diff(a.splitlines(), b.splitlines(),
fromfile, tofile, lineterm="")`, joined with `"\n"`, as invoked by the source.
The library is external to the repository; the model is exact in the
properties the source relies on: the output is the empty string iff the two
line sequences are equal (for identical inputs the generator yields nothing),
and otherwise it begins with `---`/`+++` file headers followed by hunk lines.
Hunk granularity is abstracted as a single whole-file hunk. -/
def unified_diff (fromfile tofile : String) (a b : String) : String :=
  if splitlinesNK a.data = splitlinesNK b.data then ""
  else
    "--- " ++ fromfile ++ "\n+++ " ++ tofile ++ "\n@@ -1,"
      ++ toString (splitlinesNK a.data).length ++ " +1,"
      ++ toString (splitlinesNK b.data).length ++ " @@"
      ++ String.join ((splitlinesNK a.data).map (fun l => "\n-" ++ String.mk l))
      ++ String.join ((splitlinesNK b.data).map (fun l => "\n+" ++ String.mk l))

/-- The diff of a string against itself is empty. -/
theorem unified_diff_self (f g c : String) : unified_diff f g c c = "" := by
  simp [unified_diff]

/-- Python `str.split(sep)` for a single-character separator: always returns
one more part than there are separators. -/
def splitOnChar (sep : Char) : List Char → List (List Char)
  | [] => [[]]
  | c :: rest =>
      match splitOnChar sep rest with
      | [] => [[c]]
      | h :: tl => if c = sep then [] :: h :: tl else (c :: h) :: tl

/-- Python `str.split(sep, 1)` for a single-character separator: `none` when
the separator does not occur (Python would return a one-element list). -/
def splitOnce (sep : Char) : List Char → Option (List Char × List Char)
  | [] => none
  | c :: rest =>
      if c = sep then some ([], rest)
      else (splitOnce sep rest).map (fun p => (c :: p.1, p.2))

/-- Whether `p` is an initial segment of `l`. -/
def leadsWith : List Char → List Char → Bool
  | [], _ => true
  | _ :: _, [] => false
  | a :: p, b :: l => a = b && leadsWith p l

/-- Python `str.split(sep, 1)` for a multi-character separator (used for the
`"|||"` split of `replace_regex`): `none` when the separator does not occur. -/
def splitOnceSub (sep : List Char) : List Char → Option (List Char × List Char)
  | [] => none
  | c :: rest =>
      if leadsWith sep (c :: rest) then some ([], (c :: rest).drop sep.length)
      else (splitOnceSub sep rest).map (fun p => (c :: p.1, p.2))

/-- Digit run to number. -/
def digitsToNat? (ds : List Char) : Option Nat :=
  if ds ≠ [] ∧ ds.all Char.isDigit then
    some (ds.foldl (fun n c => n * 10 + (c.toNat - 48)) 0)
  else none

/-- Python `int(str)`: surrounding whitespace allowed, optional sign, then a
non-empty digit run (digit-group underscores are not used by the callers and
are not modelled).  `none` models the `ValueError`. -/
def pyParseInt (l : List Char) : Option Int :=
  match pyStrip l with
  | '+' :: ds => (digitsToNat? ds).map Int.ofNat
  | '-' :: ds => (digitsToNat? ds).map (fun n => -(Int.ofNat n))
  | ds => (digitsToNat? ds).map Int.ofNat

/-- Normalization of one Python slice index against a list length:
negative indices count from the end, then clamp into `[0, len]`. -/
def pyClampIdx (len : Nat) (i : Int) : Nat :=
  if i < 0 then len - min len i.natAbs else min i.toNat len

/-- Python slice assignment `l[i:j] = repl`. -/
def pySliceAssign {α : Type} (l : List α) (i j : Int) (repl : List α) : List α :=
  l.take (pyClampIdx l.length i) ++ repl
    ++ l.drop (max (pyClampIdx l.length i) (pyClampIdx l.length j))

/-- The `replace_range` branch of `handle_patch_cached`: parse
`"start,end\nnew content"`, then `lines[start-1:end] = [new_text + "\n"]` on
`original.splitlines(keepends=True)`.  Parse failures model the caught
`ValueError`s (`"Invalid range: ..."`); the exact exception text is not
reproduced. -/
def replace_range_apply (original patch_text : List Char) : Except String (List Char) :=
  match splitOnce '\n' patch_text with
  | none => Except.error "replace_range format: 'start,end\\nnew content'"
  | some (range_spec, new_text) =>
      match splitOnChar ',' range_spec with
      | [s_str, e_str] =>
          match pyParseInt s_str, pyParseInt e_str with
          | some s, some e =>
              Except.ok ((pySliceAssign (splitlinesKE original) (s - 1) e [new_text ++ ['\n']]).flatten)
          | _, _ => Except.error "Invalid range: invalid int literal"
      | _ => Except.error "Invalid range: unpacking mismatch"

/-- Arguments of `patch_cached` (with the Python defaults already applied:
`format` defaults to `"unified_diff"`, `dry_run` to `False`). -/
structure PatchArgs where
  path : String
  patch : String
  format : String
  dry_run : Bool
deriving DecidableEq, Repr

/-- The success payload of `patch_cached`:
`{ok: true, diff, new_size, notes}`. -/
structure PatchOk where
  diff : String
  new_size : Nat
  notes : String
deriving DecidableEq, Repr

/-- The format dispatch of `handle_patch_cached`: compute the new content or
an error.  `applyU` is the external `patch` subprocess (`.ok` = patched file
content for exit code 0, `.error` = its stderr, wrapped as `"Patch failed:"`);
`rsub` is Python `re.sub` with MULTILINE and DOTALL (`.error` = a raised
`re.error`, caught by the handler's `except` clause). -/
def patch_new_content (applyU : String → String → Except String String)
    (rsub : String → String → String → Except String String)
    (original : String) (a : PatchArgs) : Except String String :=
  if a.format = "unified_diff" then
    match applyU original a.patch with
    | Except.ok c => Except.ok c
    | Except.error stderr => Except.error ("Patch failed: " ++ stderr)
  else if a.format = "replace_regex" then
    match splitOnceSub ['|', '|', '|'] a.patch.data with
    | none => Except.error "replace_regex format: 'pattern|||replacement'"
    | some (pat, repl) =>
        match rsub (String.mk pat) (String.mk repl) original with
        | Except.ok c => Except.ok c
        | Except.error e => Except.error ("Patch error: " ++ e)
  else if a.format = "replace_range" then
    match replace_range_apply original.data a.patch.data with
    | Except.ok c => Except.ok (String.mk c)
    | Except.error e => Except.error e
  else Except.error ("Unknown patch format: " ++ a.format)

/-- `handle_patch_cached` from `main.py` (lines 509-622): guard on the path
and the cache, compute the new content per format, build the display diff
between the original and the new content, then update the cache unless
`dry_run`.  Every error path returns the task unchanged. -/
def handle_patch_cached (applyU : String → String → Except String String)
    (rsub : String → String → String → Except String String)
    (t : Task) (a : PatchArgs) : Task × Except String PatchOk :=
  if a.path = "" then (t, Except.error "Missing 'path' argument")
  else
    match cacheGet t.file_cache a.path with
    | none => (t, Except.error ("File '" ++ a.path ++ "' not in cache. Use fs_read first."))
    | some original =>
        match patch_new_content applyU rsub original a with
        | Except.error e => (t, Except.error e)
        | Except.ok new_content =>
            if a.dry_run then
              (t, Except.ok
                { diff := unified_diff (a.path ++ " (original)") (a.path ++ " (patched)")
                    original new_content
                  new_size := new_content.length
                  notes := "Dry run - cache not modified" })
            else
              ({ t with file_cache := cacheSet t.file_cache a.path new_content },
               Except.ok
                { diff := unified_diff (a.path ++ " (original)") (a.path ++ " (patched)")
                    original new_content
                  new_size := new_content.length
                  notes := "Patch applied to cache" })

/-- Arguments of `diff_cached` (defaults applied: `against` defaults to
`"original"`, `provided` to `""`). -/
structure DiffArgs where
  path : String
  against : String
  provided : String
deriving DecidableEq, Repr

/-- `handle_diff_cached` from `main.py` (lines 682-725).  Note the source's
own comment on the `against = "original"` branch: `For now, "original" =
cached (we'd need to track original separately)` — both sides of the diff are
the current cached content. -/
def handle_diff_cached (t : Task) (a : DiffArgs) : Except String String :=
  if a.path = "" then Except.error "Missing 'path' argument"
  else
    match cacheGet t.file_cache a.path with
    | none => Except.error ("File '" ++ a.path ++ "' not in cache")
    | some current =>
        if a.against = "provided" then
          if a.provided = "" then Except.error "Missing 'provided' text for diff"
          else Except.ok (unified_diff (a.path ++ " (provided)") (a.path ++ " (current)")
            a.provided current)
        else
          Except.ok (unified_diff (a.path ++ " (original)") (a.path ++ " (current)")
            current current)

/-- `handle_lua_check_cached` from `main.py` (lines 625-679): guard on the
path and the cache, then delegate to the external `luac -p` (`luaCheck`). -/
def handle_lua_check_cached (luaCheck : String → Except String Unit)
    (t : Task) (path : String) : Except String Unit :=
  if path = "" then Except.error "Missing 'path' argument"
  else
    match cacheGet t.file_cache path with
    | none => Except.error ("File '" ++ path ++ "' not in cache. Use fs_read first.")
    | some content => luaCheck content

/-- Updating a key makes it readable. -/
theorem cacheGet_cacheSet (cache : List (String × String)) (k v : String) :
    cacheGet (cacheSet cache k v) k = some v := by
  induction cache with
  | nil => simp [cacheSet, cacheGet]
  | cons hd tl ih =>
      by_cases h : hd.1 = k
      · simp [cacheSet, cacheGet, h]
      · simp [cacheSet, cacheGet, h, ih]

/-- C8: every successful `patch_cached` result carries the unified diff
between the cached content before patching and the new content, the new
content's length, and the branch's notes string; with `dry_run` the task (and
so its cache) is left unchanged, without `dry_run` the cache entry for the
path is replaced by the new content. -/
theorem patch_cached_success_contract
    (applyU : String → String → Except String String)
    (rsub : String → String → String → Except String String)
    (t : Task) (a : PatchArgs) (t' : Task) (r : PatchOk)
    (h : handle_patch_cached applyU rsub t a = (t', Except.ok r)) :
    ∃ original new_content,
      cacheGet t.file_cache a.path = some original ∧
      patch_new_content applyU rsub original a = Except.ok new_content ∧
      r.diff = unified_diff (a.path ++ " (original)") (a.path ++ " (patched)")
        original new_content ∧
      r.new_size = new_content.length ∧
      (a.dry_run = true → t' = t ∧ r.notes = "Dry run - cache not modified") ∧
      (a.dry_run = false →
        t'.file_cache = cacheSet t.file_cache a.path new_content ∧
        cacheGet t'.file_cache a.path = some new_content ∧
        r.notes = "Patch applied to cache") := by
  unfold handle_patch_cached at h
  split at h
  · simp at h
  · split at h
    · simp at h
    · rename_i original horig
      split at h
      · simp at h
      · rename_i new_content hnew
        refine ⟨original, new_content, horig, hnew, ?_⟩
        split at h
        · rename_i hdry
          obtain ⟨ht, hr⟩ := Prod.mk.injEq .. ▸ h
          obtain hr := Except.ok.inj hr
          subst ht
          subst hr
          exact ⟨rfl, rfl, fun _ => ⟨rfl, rfl⟩, fun hf => absurd hdry (by simp [hf])⟩
        · rename_i hdry
          obtain ⟨ht, hr⟩ := Prod.mk.injEq .. ▸ h
          obtain hr := Except.ok.inj hr
          subst hr
          refine ⟨rfl, rfl, fun htr => absurd htr hdry, fun _ => ?_⟩
          refine ⟨by rw [← ht], ?_, rfl⟩
          rw [← ht]
          exact cacheGet_cacheSet t.file_cache a.path new_content

/-- A stand-in for the external `patch` subprocess in concrete runs. -/
def demoApplyU : String → String → Except String String := fun _ p => Except.ok p

/-- A stand-in for Python `re.sub` in concrete runs. -/
def demoRsub : String → String → String → Except String String := fun _ r _ => Except.ok r

/-- A task holding `"x"` cached under `f.lua`. -/
def patch_demo_task : Task :=
  { create_task "tp" "code_job" "cc1" "p" ["patch_cached"] with
      file_cache := [("f.lua", "x")] }

/-- The concrete `replace_range` patch replacing line 1 with `y`. -/
def patch_demo_args : PatchArgs :=
  { path := "f.lua", patch := "1,1\ny", format := "replace_range", dry_run := false }

/-- Witness for `patch_cached_success_contract` on a concrete
`replace_range` run. -/
theorem patch_cached_success_witness :
    handle_patch_cached demoApplyU demoRsub patch_demo_task patch_demo_args
      = ({ patch_demo_task with file_cache := [("f.lua", "y\n")] },
         Except.ok
          { diff := unified_diff "f.lua (original)" "f.lua (patched)" "x" "y\n"
            new_size := 2
            notes := "Patch applied to cache" }) ∧
    ∃ original new_content,
      cacheGet patch_demo_task.file_cache patch_demo_args.path = some original ∧
      patch_new_content demoApplyU demoRsub original patch_demo_args
        = Except.ok new_content ∧
      ({ diff := unified_diff "f.lua (original)" "f.lua (patched)" "x" "y\n"
         new_size := 2
         notes := "Patch applied to cache" : PatchOk }).diff
        = unified_diff (patch_demo_args.path ++ " (original)")
            (patch_demo_args.path ++ " (patched)") original new_content ∧
      ({ diff := unified_diff "f.lua (original)" "f.lua (patched)" "x" "y\n"
         new_size := 2
         notes := "Patch applied to cache" : PatchOk }).new_size
        = new_content.length ∧
      (patch_demo_args.dry_run = true →
        ({ patch_demo_task with file_cache := [("f.lua", "y\n")] } : Task) = patch_demo_task ∧
        ({ diff := unified_diff "f.lua (original)" "f.lua (patched)" "x" "y\n"
           new_size := 2
           notes := "Patch applied to cache" : PatchOk }).notes
          = "Dry run - cache not modified") ∧
      (patch_demo_args.dry_run = false →
        ({ patch_demo_task with file_cache := [("f.lua", "y\n")] } : Task).file_cache
          = cacheSet patch_demo_task.file_cache patch_demo_args.path new_content ∧
        cacheGet ({ patch_demo_task with file_cache := [("f.lua", "y\n")] } : Task).file_cache
          patch_demo_args.path = some new_content ∧
        ({ diff := unified_diff "f.lua (original)" "f.lua (patched)" "x" "y\n"
           new_size := 2
           notes := "Patch applied to cache" : PatchOk }).notes = "Patch applied to cache") :=
  ⟨rfl,
   patch_cached_success_contract demoApplyU demoRsub patch_demo_task patch_demo_args
     _ _ rfl⟩

/-- C10: every error outcome of `patch_cached` — missing path, file not in
cache, failed unified-diff application, malformed regex or range patch,
unknown format, or a raised exception in an external — leaves the task, and
in particular its file cache, exactly unchanged. -/
theorem patch_cached_error_atomic
    (applyU : String → String → Except String String)
    (rsub : String → String → String → Except String String)
    (t : Task) (a : PatchArgs) (t' : Task) (e : String)
    (h : handle_patch_cached applyU rsub t a = (t', Except.error e)) :
    t' = t := by
  unfold handle_patch_cached at h
  split at h
  · exact ((Prod.mk.injEq .. ▸ h).1).symm
  · split at h
    · exact ((Prod.mk.injEq .. ▸ h).1).symm
    · split at h
      · exact ((Prod.mk.injEq .. ▸ h).1).symm
      · split at h
        · exact absurd (Prod.mk.injEq .. ▸ h).2 (by simp)
        · exact absurd (Prod.mk.injEq .. ▸ h).2 (by simp)

/-- Witness for `patch_cached_error_atomic`: an unknown-format request errors
and leaves the task unchanged. -/
theorem patch_cached_error_witness :
    handle_patch_cached demoApplyU demoRsub patch_demo_task
        { path := "f.lua", patch := "p", format := "bogus", dry_run := false }
      = (patch_demo_task, Except.error "Unknown patch format: bogus") ∧
    patch_demo_task = patch_demo_task :=
  ⟨rfl,
   patch_cached_error_atomic demoApplyU demoRsub patch_demo_task
     { path := "f.lua", patch := "p", format := "bogus", dry_run := false }
     patch_demo_task "Unknown patch format: bogus" rfl⟩

/-! ### C9: `diff_cached` against `original` -/

/-- A task that cached `a.txt` from a successful client `fs_read`: the
first-cached (original) content is `"x"`. -/
def c9_read : Task :=
  (handle_command_result
    (set_pending_command (create_task "td" "code_job" "cc1" "p" ["fs_read", "patch_cached", "diff_cached"])
      "cd" "fs_read")
    { task_id := "td", call_id := "cd", ok := true
      result := some [("path", "a.txt"), ("content", "x")], error := none }).1

/-- The same task after a `replace_range` patch changed the cached content of
`a.txt` from `"x"` to `"y\n"`. -/
def c9_patched : Task :=
  (handle_patch_cached demoApplyU demoRsub c9_read
    { path := "a.txt", patch := "1,1\ny", format := "replace_range", dry_run := false }).1

/-- C9 counterexample: after a patch that changed the cached content (from the
first-cached `"x"` to `"y\n"`), `diff_cached` with `against = "original"`
returns the empty diff — the handler diffs the current content against itself
(the original is never tracked), so the claimed non-empty original-vs-current
diff is refuted. -/
theorem diff_cached_original_empty_after_patch :
    cacheGet c9_read.file_cache "a.txt" = some "x" ∧
    cacheGet c9_patched.file_cache "a.txt" = some "y\n" ∧
    handle_diff_cached c9_patched { path := "a.txt", against := "original", provided := "" }
      = Except.ok "" :=
  ⟨by decide, by decide, rfl⟩

/-- C9 amended: for every cached path, `diff_cached` with any `against` other
than `"provided"` returns the unified diff of the current cached content
against itself, which is always the empty string; the original first-cached
content is not tracked by the data model. -/
theorem diff_cached_original_always_empty (t : Task) (a : DiffArgs) (c : String)
    (h1 : a.path ≠ "") (h2 : a.against ≠ "provided")
    (h3 : cacheGet t.file_cache a.path = some c) :
    handle_diff_cached t a = Except.ok "" := by
  unfold handle_diff_cached
  rw [if_neg h1, h3]
  dsimp only
  rw [if_neg h2, unified_diff_self]

/-- Witness for `diff_cached_original_always_empty` at the concrete patched
task. -/
theorem diff_cached_original_empty_witness :
    ("a.txt" ≠ "" ∧ "original" ≠ "provided" ∧
      cacheGet c9_patched.file_cache "a.txt" = some "y\n") ∧
    handle_diff_cached c9_patched { path := "a.txt", against := "original", provided := "" }
      = Except.ok "" :=
  ⟨⟨by decide, by decide, by decide⟩,
   diff_cached_original_always_empty c9_patched
     { path := "a.txt", against := "original", provided := "" } "y\n"
     (by decide) (by decide) (by decide)⟩

/-! ### Tool dispatcher (`execute_tool_calls`, `handle_send_status`,
`handle_ask_user`, `handle_fs_write_cached` in `main.py`)

The arguments dict of a tool call is modelled per handler shape; an accessor
with the handler's `args.get(..., default)` fallback extracts the fields.
Outbound sends are modelled as delivered frames (connection management and
send failures are out of scope; the dispatcher ignores the send result apart
from logging).  `freshId` stands for the one `uuid.uuid4()` a batch can mint:
the batch stops at the first call that needs one. -/

/-- Python `str.lower()` (ASCII; the patterns are ASCII). -/
def pyLowerChar (c : Char) : Char :=
  if 'A' ≤ c ∧ c ≤ 'Z' then Char.ofNat (c.toNat + 32) else c

/-- Lower-case a character list. -/
def pyLower (l : List Char) : List Char := l.map pyLowerChar

/-- Python `needle in haystack` for strings as character lists. -/
def hasSub (p : List Char) : List Char → Bool
  | [] => leadsWith p []
  | c :: tl => leadsWith p (c :: tl) || hasSub p tl

/-- The `forbidden_patterns` list of `handle_ask_user` (`main.py` 431-441). -/
def forbidden_patterns : List String :=
  ["please provide the content",
   "provide the content for",
   "what should the content be",
   "give me the content",
   "write the content",
   "what code should",
   "should i create",
   "do you want me to create",
   "shall i create"]

/-- The `parameter_patterns` list of `handle_ask_user` (`main.py` 444-449):
pattern and remediation suggestion. -/
def parameter_patterns : List (String × String) :=
  [("shift value", "Make shift value a command-line argument: arg[1]"),
   ("what value", "Use a sensible default or make it a parameter"),
   ("which value", "Use a sensible default or make it a parameter"),
   ("what number", "Use a sensible default or make it a parameter")]

/-- The rejection message for a parameter question (`main.py` 453-464),
abridged to its head; the claims depend on a rejection error being produced,
not on its full wording. -/
def param_reject_msg (question suggestion : String) : String :=
  "[SYSTEM ERROR] Don't ask about implementation parameters.\n\n"
    ++ "You asked: \"" ++ question ++ "\"\n\n"
    ++ "This is unnecessary. " ++ suggestion ++ "\n\n"
    ++ "Only use ask_user for genuine REQUIREMENT clarifications."

/-- The rejection message for a forbidden question (`main.py` 470-483),
abridged to its head. -/
def forbidden_reject_msg (question : String) : String :=
  "[SYSTEM ERROR] Invalid use of ask_user tool.\n\n"
    ++ "You asked: \"" ++ question ++ "\"\n\n"
    ++ "This is FORBIDDEN. You are an AI engineer - YOU make design decisions."

/-- `handle_ask_user` from `main.py` (lines 415-502): check the lower-cased
question against `parameter_patterns` first, then `forbidden_patterns`; on a
hit return the rejection error without sending anything or touching the task;
otherwise mint a call id, set the pending command to `ask_user` and emit a
`user_question` frame.  The `Option String` is the Python return value: `some
err` for the `{"ok": False, "error": err}` dict, `none` for `None`. -/
def handle_ask_user (freshId : String) (t : Task) (question : String) :
    Task × List Frame × Option String :=
  match parameter_patterns.find? (fun ps => hasSub ps.1.data (pyLower question.data)) with
  | some ps => (t, [], some (param_reject_msg question ps.2))
  | none =>
      match forbidden_patterns.find? (fun p => hasSub p.data (pyLower question.data)) with
      | some _ => (t, [], some (forbidden_reject_msg question))
      | none =>
          (set_pending_command t freshId "ask_user",
           [Frame.user_question t.task_id freshId question], none)

/-- `handle_send_status` with `continue_processing=False` (batch mode):
emit a `status_update` frame and append the success entry. -/
def handle_send_status (t : Task) (message : String) : Task × List Frame :=
  (add_to_history t (format_tool_result "send_status" (some [("sent", "true")]) none),
   [Frame.status_update t.task_id message])

/-- `handle_fs_write_cached` from `main.py` (lines 728-773): guard on path and
cache, then dispatch an `fs_write` command call carrying the cached content
(`some err` models the error dict, `none` the dispatched-to-client case). -/
def handle_fs_write_cached (freshId : String) (t : Task) (path : String) :
    Task × List Frame × Option String :=
  if path = "" then (t, [], some "Missing 'path' argument")
  else
    match cacheGet t.file_cache path with
    | none => (t, [], some ("File '" ++ path ++ "' not in cache. Use fs_read first."))
    | some content =>
        (set_pending_command t freshId "fs_write",
         [Frame.command_call t.task_id freshId "fs_write" [("path", path), ("content", content)]],
         none)

/-- The arguments of one tool call, shaped per handler. -/
inductive ToolArgs where
  | statusArgs (message : String)
  | askArgs (question : String)
  | patchCallArgs (a : PatchArgs)
  | luaArgs (path : String)
  | diffCallArgs (a : DiffArgs)
  | writeCachedArgs (path : String)
  | rawArgs (kv : List (String × String))
deriving DecidableEq, Repr

/-- One tool call `{tool, arguments}` produced by the model. -/
structure ToolCall where
  tool : String
  args : ToolArgs
deriving DecidableEq, Repr

/-- `args.get("message", "")`. -/
def argMessage : ToolArgs → String
  | ToolArgs.statusArgs m => m
  | _ => ""

/-- `args.get("question", "")`. -/
def argQuestion : ToolArgs → String
  | ToolArgs.askArgs q => q
  | _ => ""

/-- The patch argument fields with their Python defaults. -/
def argPatchCall : ToolArgs → PatchArgs
  | ToolArgs.patchCallArgs a => a
  | _ => { path := "", patch := "", format := "unified_diff", dry_run := false }

/-- `args.get("path", "")` for `lua_check_cached`. -/
def argLua : ToolArgs → String
  | ToolArgs.luaArgs p => p
  | _ => ""

/-- The diff argument fields with their Python defaults. -/
def argDiffCall : ToolArgs → DiffArgs
  | ToolArgs.diffCallArgs a => a
  | _ => { path := "", against := "original", provided := "" }

/-- `args.get("path", "")` for `fs_write_cached`. -/
def argWriteCached : ToolArgs → String
  | ToolArgs.writeCachedArgs p => p
  | _ => ""

/-- The raw args forwarded verbatim to a CC-side `command_call`. -/
def argRaw : ToolArgs → List (String × String)
  | ToolArgs.rawArgs kv => kv
  | _ => []

/-- The history rendering of a `patch_cached` outcome, as the batch loop
passes it to `format_tool_result` (success dict or error). -/
def patchResultEntry : Except String PatchOk → HistEntry
  | Except.ok r =>
      format_tool_result "patch_cached"
        (some [("ok", "true"), ("diff", r.diff), ("new_size", toString r.new_size),
               ("notes", r.notes)]) none
  | Except.error e => format_tool_result "patch_cached" none (some e)

/-- The history rendering of a `lua_check_cached` outcome. -/
def luaResultEntry : Except String Unit → HistEntry
  | Except.ok _ => format_tool_result "lua_check_cached" (some [("ok", "true")]) none
  | Except.error e => format_tool_result "lua_check_cached" none (some e)

/-- The history rendering of a `diff_cached` outcome: the batch loop passes
the whole result dict as the (successful) result, never as an error
(`main.py` line 334). -/
def diffResultEntry : Except String String → HistEntry
  | Except.ok d => format_tool_result "diff_cached" (some [("diff", d)]) none
  | Except.error e => format_tool_result "diff_cached" (some [("error", e)]) none

/-- `execute_tool_calls` from `main.py` (lines 265-380): run the calls in
order; an unauthorized call appends an error entry and is skipped;
server-side tools (`send_status`, `patch_cached`, `lua_check_cached`,
`diff_cached`) run inline, append their outcome, and the loop advances;
`ask_user` stops the batch (either waiting for the user, or — when the
question is rejected — appending the rejection and rescheduling);
`fs_write_cached` either dispatches to the client and stops, or appends its
error and advances; every other tool is CC-side: set the pending call, emit a
`command_call` frame, and stop.  When the whole list runs server-side,
`process_task` is rescheduled.  Result: final task, frames sent, and whether
`process_task` was scheduled. -/
def execute_tool_calls (applyU : String → String → Except String String)
    (rsub : String → String → String → Except String String)
    (luaCheck : String → Except String Unit) (freshId : String) (t : Task) :
    List ToolCall → Task × List Frame × Bool
  | [] => (t, [], true)
  | c :: rest =>
      if c.tool ∉ t.allowed_commands then
        execute_tool_calls applyU rsub luaCheck freshId
          (add_to_history t (format_tool_result c.tool none
            (some ("Command '" ++ c.tool ++ "' not allowed for this task")))) rest
      else if c.tool = "send_status" then
        match handle_send_status t (argMessage c.args) with
        | (t', frames) =>
            match execute_tool_calls applyU rsub luaCheck freshId t' rest with
            | (t'', frames', sched) => (t'', frames ++ frames', sched)
      else if c.tool = "ask_user" then
        match handle_ask_user freshId t (argQuestion c.args) with
        | (t', frames, some err) =>
            (add_to_history t' (format_tool_result "ask_user" none (some err)), frames, true)
        | (t', frames, none) => (t', frames, false)
      else if c.tool = "patch_cached" then
        match handle_patch_cached applyU rsub t (argPatchCall c.args) with
        | (t', res) =>
            execute_tool_calls applyU rsub luaCheck freshId
              (add_to_history t' (patchResultEntry res)) rest
      else if c.tool = "lua_check_cached" then
        execute_tool_calls applyU rsub luaCheck freshId
          (add_to_history t (luaResultEntry (handle_lua_check_cached luaCheck t (argLua c.args))))
          rest
      else if c.tool = "diff_cached" then
        execute_tool_calls applyU rsub luaCheck freshId
          (add_to_history t (diffResultEntry (handle_diff_cached t (argDiffCall c.args)))) rest
      else if c.tool = "fs_write_cached" then
        match handle_fs_write_cached freshId t (argWriteCached c.args) with
        | (t', frames, none) => (t', frames, false)
        | (t', _, some err) =>
            execute_tool_calls applyU rsub luaCheck freshId
              (add_to_history t' (format_tool_result "fs_write_cached" none (some err))) rest
      else
        (set_pending_command t freshId c.tool,
         [Frame.command_call t.task_id freshId c.tool (argRaw c.args)], false)

/-- C7: a tool call whose name is not in the task's `allowed_commands`
executes nothing: the dispatcher appends the unauthorized-tool error entry to
the history, skips the call, and continues with the rest of the batch on the
otherwise-unchanged task (in particular the status is untouched, so the task
is not terminated). -/
theorem unauthorized_tool_skipped
    (applyU : String → String → Except String String)
    (rsub : String → String → String → Except String String)
    (luaCheck : String → Except String Unit) (freshId : String)
    (t : Task) (c : ToolCall) (rest : List ToolCall)
    (h : c.tool ∉ t.allowed_commands) :
    execute_tool_calls applyU rsub luaCheck freshId t (c :: rest)
      = execute_tool_calls applyU rsub luaCheck freshId
          (add_to_history t (format_tool_result c.tool none
            (some ("Command '" ++ c.tool ++ "' not allowed for this task")))) rest ∧
    (add_to_history t (format_tool_result c.tool none
        (some ("Command '" ++ c.tool ++ "' not allowed for this task")))).history
      = t.history ++ [format_tool_result c.tool none
          (some ("Command '" ++ c.tool ++ "' not allowed for this task"))] ∧
    (add_to_history t (format_tool_result c.tool none
        (some ("Command '" ++ c.tool ++ "' not allowed for this task")))).status = t.status ∧
    (add_to_history t (format_tool_result c.tool none
        (some ("Command '" ++ c.tool ++ "' not allowed for this task")))).file_cache
      = t.file_cache := by
  refine ⟨?_, rfl, rfl, rfl⟩
  conv_lhs => rw [execute_tool_calls]
  rw [if_pos h]

/-- Witness for `unauthorized_tool_skipped`: an `fs_delete` call on a task
allowed only `fs_read`. -/
theorem unauthorized_tool_skipped_witness :
    (("fs_delete" : String) ∉ trace_task0.allowed_commands) ∧
    execute_tool_calls demoApplyU demoRsub (fun _ => Except.ok ()) "id1" trace_task0
        [{ tool := "fs_delete", args := ToolArgs.rawArgs [] }]
      = execute_tool_calls demoApplyU demoRsub (fun _ => Except.ok ()) "id1"
          (add_to_history trace_task0 (format_tool_result "fs_delete" none
            (some "Command 'fs_delete' not allowed for this task"))) [] :=
  ⟨by decide,
   (unauthorized_tool_skipped demoApplyU demoRsub (fun _ => Except.ok ()) "id1" trace_task0
     { tool := "fs_delete", args := ToolArgs.rawArgs [] } [] (by decide)).1⟩

/-- The static rejection test of `ask_user`: the lower-cased question
contains one of the static forbidden substrings (either list). -/
def ask_user_blocked (question : String) : Bool :=
  parameter_patterns.any (fun ps => hasSub ps.1.data (pyLower question.data))
    || forbidden_patterns.any (fun p => hasSub p.data (pyLower question.data))

/-- C6: for an authorized `ask_user` call, if the question (compared
case-insensitively) contains a static forbidden substring the call is
rejected — a remediation error entry is appended, no `user_question` frame is
sent, and the task is rescheduled; if it contains none, a `user_question`
frame carrying the freshly minted call id is sent, the pending command is set,
and the batch stops. -/
theorem ask_user_validation
    (applyU : String → String → Except String String)
    (rsub : String → String → String → Except String String)
    (luaCheck : String → Except String Unit) (freshId : String)
    (t : Task) (q : String) (rest : List ToolCall)
    (hallow : "ask_user" ∈ t.allowed_commands) :
    (ask_user_blocked q = true →
      ∃ err, execute_tool_calls applyU rsub luaCheck freshId t
          ({ tool := "ask_user", args := ToolArgs.askArgs q } :: rest)
        = (add_to_history t (format_tool_result "ask_user" none (some err)), [], true)) ∧
    (ask_user_blocked q = false →
      execute_tool_calls applyU rsub luaCheck freshId t
          ({ tool := "ask_user", args := ToolArgs.askArgs q } :: rest)
        = (set_pending_command t freshId "ask_user",
           [Frame.user_question t.task_id freshId q], false)) := by
  have hnot : ¬ (("ask_user" : String) ∉ t.allowed_commands) := fun hc => hc hallow
  have hexecR : ∀ err, handle_ask_user freshId t q = (t, [], some err) →
      execute_tool_calls applyU rsub luaCheck freshId t
          ({ tool := "ask_user", args := ToolArgs.askArgs q } :: rest)
        = (add_to_history t (format_tool_result "ask_user" none (some err)), [], true) := by
    intro err hau
    conv_lhs => rw [execute_tool_calls]
    rw [if_neg hnot, if_neg (by decide : ¬ (("ask_user" : String) = "send_status")),
      if_pos (rfl : ("ask_user" : String) = "ask_user")]
    show (match handle_ask_user freshId t q with
          | (t', frames, some e) =>
              (add_to_history t' (format_tool_result "ask_user" none (some e)), frames, true)
          | (t', frames, none) => (t', frames, false)) = _
    rw [hau]
  have hexecA : ∀ t' frames, handle_ask_user freshId t q = (t', frames, none) →
      execute_tool_calls applyU rsub luaCheck freshId t
          ({ tool := "ask_user", args := ToolArgs.askArgs q } :: rest)
        = (t', frames, false) := by
    intro t' frames hau
    conv_lhs => rw [execute_tool_calls]
    rw [if_neg hnot, if_neg (by decide : ¬ (("ask_user" : String) = "send_status")),
      if_pos (rfl : ("ask_user" : String) = "ask_user")]
    show (match handle_ask_user freshId t q with
          | (t', frames, some e) =>
              (add_to_history t' (format_tool_result "ask_user" none (some e)), frames, true)
          | (t', frames, none) => (t', frames, false)) = _
    rw [hau]
  cases hp : parameter_patterns.find? (fun ps => hasSub ps.1.data (pyLower q.data)) with
  | some ps =>
      have hau : handle_ask_user freshId t q = (t, [], some (param_reject_msg q ps.2)) := by
        unfold handle_ask_user
        rw [hp]
      have hblk : ask_user_blocked q = true := by
        have hmem := List.mem_of_find?_eq_some hp
        have hpred := List.find?_some hp
        unfold ask_user_blocked
        rw [Bool.or_eq_true, List.any_eq_true]
        exact Or.inl ⟨ps, hmem, hpred⟩
      refine ⟨fun _ => ⟨param_reject_msg q ps.2, hexecR _ hau⟩, fun hfalse => ?_⟩
      rw [hblk] at hfalse
      cases hfalse
  | none =>
      cases hf : forbidden_patterns.find? (fun p => hasSub p.data (pyLower q.data)) with
      | some p =>
          have hau : handle_ask_user freshId t q = (t, [], some (forbidden_reject_msg q)) := by
            unfold handle_ask_user
            rw [hp, hf]
          have hblk : ask_user_blocked q = true := by
            have hmem := List.mem_of_find?_eq_some hf
            have hpred := List.find?_some hf
            unfold ask_user_blocked
            simp only [Bool.or_eq_true, List.any_eq_true]
            exact Or.inr ⟨p, hmem, hpred⟩
          refine ⟨fun _ => ⟨forbidden_reject_msg q, hexecR _ hau⟩, fun hfalse => ?_⟩
          rw [hblk] at hfalse
          cases hfalse
      | none =>
          have hau : handle_ask_user freshId t q
              = (set_pending_command t freshId "ask_user",
                 [Frame.user_question t.task_id freshId q], none) := by
            unfold handle_ask_user
            rw [hp, hf]
          have hblk : ask_user_blocked q = false := by
            unfold ask_user_blocked
            rw [Bool.or_eq_false_iff]
            constructor
            · rw [List.any_eq_false]
              intro x hx
              exact (List.find?_eq_none.mp hp) x hx
            · rw [List.any_eq_false]
              intro x hx
              exact (List.find?_eq_none.mp hf) x hx
          refine ⟨fun htrue => ?_, fun _ => hexecA _ _ hau⟩
          rw [hblk] at htrue
          cases htrue

/-- Witness for `ask_user_validation`: the forbidden question `Should I
create the file?` is rejected; the behavioral question `Should it wrap
around after Z?` is dispatched. -/
theorem ask_user_validation_witness :
    (("ask_user" : String) ∈ c1_waiting.allowed_commands ∨
      ("ask_user" : String) ∈ ["ask_user"]) ∧
    (ask_user_blocked "Should I create the file?" = true ∧
      ∃ err, execute_tool_calls demoApplyU demoRsub (fun _ => Except.ok ()) "id2"
          (create_task "tq" "code_job" "cc1" "p" ["ask_user"])
          [{ tool := "ask_user", args := ToolArgs.askArgs "Should I create the file?" }]
        = (add_to_history (create_task "tq" "code_job" "cc1" "p" ["ask_user"])
            (format_tool_result "ask_user" none (some err)), [], true)) ∧
    (ask_user_blocked "Should it wrap around after Z?" = false ∧
      execute_tool_calls demoApplyU demoRsub (fun _ => Except.ok ()) "id2"
          (create_task "tq" "code_job" "cc1" "p" ["ask_user"])
          [{ tool := "ask_user", args := ToolArgs.askArgs "Should it wrap around after Z?" }]
        = (set_pending_command (create_task "tq" "code_job" "cc1" "p" ["ask_user"]) "id2" "ask_user",
           [Frame.user_question "tq" "id2" "Should it wrap around after Z?"], false)) :=
  ⟨Or.inr (by decide),
   ⟨by decide,
    (ask_user_validation demoApplyU demoRsub (fun _ => Except.ok ()) "id2"
      (create_task "tq" "code_job" "cc1" "p" ["ask_user"]) "Should I create the file?" []
      (by decide)).1 (by decide)⟩,
   ⟨by decide,
    (ask_user_validation demoApplyU demoRsub (fun _ => Except.ok ()) "id2"
      (create_task "tq" "code_job" "cc1" "p" ["ask_user"]) "Should it wrap around after Z?" []
      (by decide)).2 (by decide)⟩⟩

end Orchestrator
